import Mathlib

set_option maxHeartbeats 1000000

attribute [local semireducible] Rat.add Rat.sub Rat.mul Rat.inv

namespace Hrtfdata

/-- Python `str.startswith`, on the character-list view of strings. -/
def strStartsWith (s pre : String) : Bool := pre.data.isPrefixOf s.data

/-- The characters of `s` before the first occurrence of `pat`. -/
def takeUntilInfix : List Char → List Char → List Char
  | [], _ => []
  | c :: rest, pat =>
    if pat.isPrefixOf (c :: rest) then [] else c :: takeUntilInfix rest pat

/-- Python `spec_name.split('_spec')[0]`. -/
def splitSpecHead (s : String) : String := String.mk (takeUntilInfix s.data "_spec".data)

/-- Python runtime errors distinguished by kind, as raised by the dataset code. -/
inductive PyErr where
  | valueError (msg : String)
  | indexError
deriving DecidableEq

/-- The `subject_ids` include-list argument: either a collection of ids or a string
selector (the code explicitly guards `not isinstance(subject_ids, str)`). -/
inductive SubjArg where
  | ids (l : List Nat)
  | strArg (s : String)
deriving DecidableEq

/-- Modality names that can appear as keys of a specification dictionary. -/
inductive Modality where
  | images | anthropometry | hrirs | subject | side | collection
deriving DecidableEq

/-- One entry of a specification dictionary: its modality key plus the configuration
fields that the modelled code reads (`side`, `domain` for hrirs, `rear` for images),
with the `.get` defaults of the source. -/
structure SpecEntry where
  key : Modality
  side : String := ""
  rear : Bool := false
  domain : String := "time"
deriving DecidableEq

abbrev Spec := List SpecEntry

/-- Raw modality values fetched from the external providers. -/
inductive Val where
  | arr (shape : List Nat) (data : List ℚ)
  | nat (n : Nat)
  | str (s : String)
deriving DecidableEq

/-- A role value after the shaping rule of `__getitem__`: an empty array, a single
unwrapped value, or a tuple of values. -/
inductive SVal where
  | emptyArr
  | raw (v : Val)
  | tup (vs : List Val)
deriving DecidableEq

abbrev Store := List (Modality × Val)

/-- Python dict insertion: an existing key keeps its position and gets the new value,
a new key is appended. -/
def specInsert (d : Spec) (e : SpecEntry) : Spec :=
  if d.any (fun x => x.key == e.key) then
    d.map (fun x => if x.key == e.key then e else x)
  else d ++ [e]

/-- Python dict merge `{**a, **b}` for specifications: right side overrides. -/
def pyMergeSpec (a b : Spec) : Spec := b.foldl specInsert a

def storeInsert (d : Store) (k : Modality) (v : Val) : Store :=
  if d.any (fun x => x.1 == k) then d.map (fun x => if x.1 == k then (k, v) else x)
  else d ++ [(k, v)]

/-- Python dict merge `{**a, **b}` for per-example records. -/
def storeMerge (a b : Store) : Store := b.foldl (fun d p => storeInsert d p.1 p.2) a

def storeHas (d : Store) (k : Modality) : Bool := d.any (fun x => x.1 == k)

def storeGet (d : Store) (k : Modality) : Val :=
  ((d.find? (fun x => x.1 == k)).map Prod.snd).getD (Val.str "KeyError")

def specHasKey (s : Spec) (k : Modality) : Bool := s.any (fun e => e.key == k)

/-- `self._specification['hrirs'].get('side', '')`. -/
def hrirsSide (s : Spec) : String :=
  ((s.find? (fun e => e.key == Modality.hrirs)).map SpecEntry.side).getD ""

/-- `spec['hrirs'].get('domain', 'time')`. -/
def hrirsDomain (s : Spec) : String :=
  ((s.find? (fun e => e.key == Modality.hrirs)).map SpecEntry.domain).getD "time"

/-- `spec['images'].get('rear', False)`. -/
def imagesRear (s : Spec) : Bool :=
  ((s.find? (fun e => e.key == Modality.images)).map SpecEntry.rear).getD false

def npAtol : ℚ := 1 / 100000000

def npRtol : ℚ := 1 / 100000

def ratAbs (a : ℚ) : ℚ := if a < 0 then -a else a

/-- `numpy.isclose` with default tolerances: `|a - b| <= atol + rtol * |b|`. -/
def npIsClose (a b : ℚ) : Bool := ratAbs (a - b) ≤ npAtol + npRtol * ratAbs b

/-- `numpy.allclose` on sequences of equal length. -/
def npAllClose (xs ys : List ℚ) : Bool :=
  xs.length == ys.length && (List.zip xs ys).all (fun p => npIsClose p.1 p.2)

/-- The symmetric-azimuth verification of `HRTFDataset.__init__` for spherical
datapoints: skip a leading entry close to -180, then require the remaining row
angles to equal their negated reversal within `allclose` tolerance. -/
def sphericalMirrorOk (rows : List ℚ) : Bool :=
  let startIdx := if npIsClose (rows.headD 0) (-180) then 1 else 0
  let rs := rows.drop startIdx
  npAllClose rs (rs.reverse.map (fun a => -a))

/-- The symmetric-lateral-angle verification of `HRTFDataset.__init__` for
non-spherical (interaural) datapoints: the column angles must equal their negated
reversal within `allclose` tolerance, with no singular-entry allowance. -/
def interauralMirrorOk (cols : List ℚ) : Bool :=
  npAllClose cols (cols.reverse.map (fun a => -a))

/-- The external catalog service: `specification_based_ids` plus `collection_id`. -/
structure Query where
  ids : Spec → Option SubjArg → Option (List Nat) → List (Nat × String)
  collectionId : String

/-- The external datapoint collaborator: angle-grid provider, measurement providers
and metadata accessors, plus whether it is a `SofaSphericalDataPoint`. -/
structure DataPointM where
  isSpherical : Bool
  hrirAngleIndices : Nat → List (ℚ × List ℚ)
  hrirSamplerate : Nat → ℚ
  hrirLength : Nat → ℚ
  hrtfFrequencies : Nat → List ℚ
  pinnaImage : Nat → String → Bool → Val
  anthropomorphicData : Nat → String → Val
  hrir : Nat → String → String → Val

/-- The transform callables held by the dataset: the always-applied image resize
pipeline and the three optional transforms. -/
structure TransformCfg where
  imageResize : Val → Val
  imageTransform : Option (Val → Val)
  measurementTransform : Option (Val → Val)
  hrirTransform : Option (Val → Val)

/-- The state of a constructed `HRTFDataset` (a DatasetView). -/
structure DatasetState where
  query : Query
  cfg : TransformCfg
  excludeIds : Option (List Nat)
  specification : Spec
  subjectIds : List Nat
  sides : List String
  hrirSamplerate : Option ℚ
  hrirLength : Option ℚ
  hrtfFrequencies : Option (List ℚ)
  features : List Store
  targets : List Store
  groups : List Store
  selectedAngles : List (ℚ × List ℚ)
  rowAngles : List ℚ
  columnAngles : List ℚ

/-- The default-exclude rule of `HRTFDataset.__init__` lines 41-43: when an
include-list is given, is not a string, and no exclude-list is given, the
exclude-list becomes the empty tuple. -/
def isStrInclude : Option SubjArg → Bool
  | some (SubjArg.strArg _) => true
  | _ => false

def effectiveExcludeIds (si : Option SubjArg) (ei : Option (List Nat)) :
    Option (List Nat) :=
  if si.isSome && !(isStrInclude si) && ei.isNone then some [] else ei

/-- The merged `self._specification` including optional `subject_requirements`. -/
def mergedSpecification (fs ts gs : Spec) (sr : Option Spec) : Spec :=
  match sr with
  | none => pyMergeSpec (pyMergeSpec fs ts) gs
  | some r => pyMergeSpec (pyMergeSpec (pyMergeSpec fs ts) gs) r

/-- The degenerate, explicitly-empty DatasetView returned when the filtered query is
empty but the unfiltered query is not. -/
def degenerateState (q : Query) (cfg : TransformCfg) (excludeIds : Option (List Nat))
    (spec : Spec) : DatasetState :=
  { query := q, cfg := cfg, excludeIds := excludeIds, specification := spec,
    subjectIds := [], sides := [], hrirSamplerate := none, hrirLength := none,
    hrtfFrequencies := none, features := [], targets := [], groups := [],
    selectedAngles := [], rowAngles := [], columnAngles := [] }

/-- The per-subject record built for one role specification, in the source's fixed
order of membership tests: images, anthropometry, hrirs, subject, side, collection. -/
def buildSubjectData (dp : DataPointM) (collectionId : String) (spec : Spec)
    (subject : Nat) (side : String) : Store :=
  (if specHasKey spec .images then
      [(Modality.images, dp.pinnaImage subject side (imagesRear spec))] else [])
  ++ (if specHasKey spec .anthropometry then
      [(Modality.anthropometry, dp.anthropomorphicData subject side)] else [])
  ++ (if specHasKey spec .hrirs then
      [(Modality.hrirs, dp.hrir subject side (hrirsDomain spec))] else [])
  ++ (if specHasKey spec .subject then [(Modality.subject, Val.nat subject)] else [])
  ++ (if specHasKey spec .side then [(Modality.side, Val.str side)] else [])
  ++ (if specHasKey spec .collection then
      [(Modality.collection, Val.str collectionId)] else [])

/-- `HRTFDataset.__init__`: default-exclude rule, specification merge and emptiness
check, catalog query with the empty/degenerate handling, mirror-symmetry
verification for `both-*` sides, and store construction. -/
def initDataset (q : Query) (dp : DataPointM) (cfg : TransformCfg)
    (featureSpec targetSpec groupSpec : Spec)
    (subjectIds : Option SubjArg) (subjectRequirements : Option Spec)
    (excludeIds : Option (List Nat)) : Except PyErr DatasetState :=
  let excludeIds := effectiveExcludeIds subjectIds excludeIds
  let spec0 := pyMergeSpec (pyMergeSpec featureSpec targetSpec) groupSpec
  if spec0.isEmpty then
    .error (.valueError "At least one specification should not be empty")
  else
    let spec := mergedSpecification featureSpec targetSpec groupSpec subjectRequirements
    let earIds := q.ids spec subjectIds excludeIds
    if earIds.isEmpty then
      if (q.ids spec none none).isEmpty then
        .error (.valueError "Empty dataset. Check if its configuration and paths are correct.")
      else .ok (degenerateState q cfg excludeIds spec)
    else
      let subjIds := earIds.map Prod.fst
      let sides := earIds.map Prod.snd
      let firstSubject := subjIds.headD 0
      let anglesPart : Except PyErr (List (ℚ × List ℚ) × List ℚ × List ℚ) :=
        if specHasKey spec .hrirs then
          let sel := dp.hrirAngleIndices firstSubject
          let rows := sel.map Prod.fst
          match sel.head? with
          | none => .error .indexError
          | some p =>
            let cols := p.2
            let side := hrirsSide spec
            if strStartsWith side "both-" then
              if dp.isSpherical then
                if sphericalMirrorOk rows then .ok (sel, rows, cols)
                else .error (.valueError
                  ("Only datasets with symmetric azimuths can use " ++ side ++ " sides."))
              else
                if interauralMirrorOk cols then .ok (sel, rows, cols)
                else .error (.valueError
                  ("Only datasets with symmetric lateral angles can use " ++ side ++ " sides."))
            else .ok (sel, rows, cols)
        else .ok ([], [], [])
      match anglesPart with
      | .error e => .error e
      | .ok (sel, rows, cols) =>
        .ok { query := q, cfg := cfg, excludeIds := excludeIds, specification := spec,
              subjectIds := subjIds, sides := sides,
              hrirSamplerate := some (dp.hrirSamplerate firstSubject),
              hrirLength := some (dp.hrirLength firstSubject),
              hrtfFrequencies := some (dp.hrtfFrequencies firstSubject),
              features := earIds.map (fun p => buildSubjectData dp q.collectionId featureSpec p.1 p.2),
              targets := earIds.map (fun p => buildSubjectData dp q.collectionId targetSpec p.1 p.2),
              groups := earIds.map (fun p => buildSubjectData dp q.collectionId groupSpec p.1 p.2),
              selectedAngles := sel, rowAngles := rows, columnAngles := cols }

/-- `HRTFDataset.__len__`. -/
def lenDataset (st : DatasetState) : Nat := st.features.length

def applyOpt (t : Option (Val → Val)) (v : Val) : Val :=
  match t with
  | some f => f v
  | none => v

/-- The merged `characteristics` dict of `get_single_item` after the on-demand
image resize and the optional transforms. -/
def transformedCharacteristics (cfg : TransformCfg) (features target group : Store) :
    Store :=
  let ch := storeMerge (storeMerge features target) group
  let ch := if storeHas ch .images then
      storeInsert ch .images
        (applyOpt cfg.imageTransform (cfg.imageResize (storeGet ch .images)))
    else ch
  let ch := if storeHas ch .anthropometry && cfg.measurementTransform.isSome then
      storeInsert ch .anthropometry
        (applyOpt cfg.measurementTransform (storeGet ch .anthropometry))
    else ch
  if storeHas ch .hrirs && cfg.hrirTransform.isSome then
    storeInsert ch .hrirs (applyOpt cfg.hrirTransform (storeGet ch .hrirs))
  else ch

/-- The `shape_data` closure of `__getitem__`. -/
def shapeData (ch : Store) (keys : List Modality) : SVal :=
  match keys with
  | [] => SVal.emptyArr
  | [k] => SVal.raw (storeGet ch k)
  | k1 :: k2 :: ks => SVal.tup ((k1 :: k2 :: ks).map (fun k => storeGet ch k))

structure Item where
  features : SVal
  target : SVal
  group : SVal
deriving DecidableEq

/-- The `get_single_item` closure of `__getitem__`. -/
def getSingleItem (cfg : TransformCfg) (features target group : Store) : Item :=
  let ch := transformedCharacteristics cfg features target group
  { features := shapeData ch (features.map Prod.fst),
    target := shapeData ch (target.map Prod.fst),
    group := shapeData ch (group.map Prod.fst) }

/-- `__getitem__` with a single integer index. -/
def getItemInt (st : DatasetState) (idx : Nat) : Except PyErr Item :=
  if idx < st.features.length ∧ idx < st.targets.length ∧ idx < st.groups.length then
    .ok (getSingleItem st.cfg (st.features.getD idx []) (st.targets.getD idx [])
      (st.groups.getD idx []))
  else .error .indexError

def valShape : Val → List Nat
  | .arr s _ => s
  | .nat _ => []
  | .str _ => []

/-- The numpy shape of a shaped role value; `none` when a tuple is ragged, in which
case `np.stack` fails. -/
def npShape : SVal → Option (List Nat)
  | .emptyArr => some [0]
  | .raw v => some (valShape v)
  | .tup vs =>
    match vs with
    | [] => some [0]
    | v :: rest =>
      if rest.all (fun w => decide (valShape w = valShape v)) then
        some ((v :: rest).length :: valShape v)
      else none

structure StackedArr where
  shape : List Nat
  items : List SVal
deriving DecidableEq

/-- `np.stack`: requires a nonempty sequence of equal-shaped inputs, raising
`ValueError` otherwise. -/
def npStack (xs : List SVal) : Except PyErr StackedArr :=
  match xs with
  | [] => .error (.valueError "need at least one array to stack")
  | x :: rest =>
    match npShape x with
    | none => .error (.valueError "all input arrays must have the same shape")
    | some s =>
      if rest.all (fun y => decide (npShape y = some s)) then
        .ok ⟨(x :: rest).length :: s, x :: rest⟩
      else .error (.valueError "all input arrays must have the same shape")

structure BatchItem where
  features : StackedArr
  target : StackedArr
  group : StackedArr
deriving DecidableEq

/-- The element-wise retrieval loop of batched `__getitem__`: one shaped example per
index, stopping at the first error. -/
def collectItems (st : DatasetState) : List Nat → Except PyErr (List Item)
  | [] => .ok []
  | i :: is =>
    match getItemInt st i with
    | .error e => .error e
    | .ok it =>
      match collectItems st is with
      | .error e => .error e
      | .ok rest => .ok (it :: rest)

/-- `__getitem__` with a batch of indices: element-wise retrieval, then a per-role
`np.stack` with `ValueError` mapped to the shape-mismatch message; an empty batch
hits `items[0]` and raises `IndexError`. -/
def getItemBatch (st : DatasetState) (idxs : List Nat) : Except PyErr BatchItem :=
  match collectItems st idxs with
  | .error e => .error e
  | .ok items =>
    match items with
    | [] => .error .indexError
    | _ :: _ =>
      match npStack (items.map Item.features), npStack (items.map Item.target),
          npStack (items.map Item.group) with
      | .ok f, .ok t, .ok g => .ok ⟨f, t, g⟩
      | _, _, _ => .error (.valueError "Not all data points have the same shape")

/-- The shaped example at a valid position, as computed by `__getitem__`. -/
def itemAt (st : DatasetState) (i : Nat) : Item :=
  getSingleItem st.cfg (st.features.getD i []) (st.targets.getD i []) (st.groups.getD i [])

def shapeTriple (it : Item) : Option (List Nat) × Option (List Nat) × Option (List Nat) :=
  (npShape it.features, npShape it.target, npShape it.group)

/-- `HRTFDataset.available_subject_ids`: a fresh catalog query honoring the stored
exclude-list but no include-list, unpacked with `zip(*ear_ids)` (which raises on an
empty result) and returned as sorted distinct ids. -/
def availableSubjectIds (st : DatasetState) : Except PyErr (List Nat) :=
  let earIds := st.query.ids st.specification none st.excludeIds
  if earIds.isEmpty then
    .error (.valueError "not enough values to unpack (expected 2, got 0)")
  else .ok (List.insertionSort (· ≤ ·) (earIds.map Prod.fst).dedup)

/-- The fixed order in which `__init__` tests modality membership when building a
per-subject record. -/
def canonicalOrder : List Modality :=
  [.images, .anthropometry, .hrirs, .subject, .side, .collection]

def exceptIsOk {ε α : Type} : Except ε α → Bool
  | .ok _ => true
  | .error _ => false

def exceptErr {ε α : Type} : Except ε α → Option ε
  | .ok _ => none
  | .error e => some e

/-- The five plane names accepted by the plane mixins. -/
inductive Plane where
  | horizontal | median | frontal | vertical | interaural
deriving DecidableEq

/-- The external conversion functions of `hartufo.util` (not part of the modelled
core): each maps a list of principal angles and an offset to an optional pair of
angle lists. -/
structure ExtConv where
  lateralVerticalFromYaw : List ℚ → ℚ → Option (List ℚ) × Option (List ℚ)
  lateralVerticalFromPitch : List ℚ → ℚ → Option (List ℚ) × Option (List ℚ)
  lateralVerticalFromRoll : List ℚ → ℚ → Option (List ℚ) × Option (List ℚ)
  azimuthElevationFromYaw : List ℚ → ℚ → Option (List ℚ) × Option (List ℚ)
  azimuthElevationFromPitch : List ℚ → ℚ → Option (List ℚ) × Option (List ℚ)
  azimuthElevationFromRoll : List ℚ → ℚ → Option (List ℚ) × Option (List ℚ)

/-- `InterauralPlaneMixin._lateral_vertical_from_yaw`. -/
def interauralLateralVerticalFromYaw (ext : ExtConv) (yawAngles : Option (List ℚ))
    (planeOffset : ℚ) : Option (List ℚ) × Option (List ℚ) :=
  match yawAngles with
  | none => (none, some [planeOffset - 180, planeOffset])
  | some a => ext.lateralVerticalFromYaw a planeOffset

/-- `InterauralPlaneMixin._lateral_vertical_from_pitch`. -/
def interauralLateralVerticalFromPitch (ext : ExtConv) (pitchAngles : Option (List ℚ))
    (planeOffset : ℚ) : Option (List ℚ) × Option (List ℚ) :=
  match pitchAngles with
  | none => (some [planeOffset], none)
  | some a => ext.lateralVerticalFromPitch a planeOffset

/-- `InterauralPlaneMixin._lateral_vertical_from_roll`. -/
def interauralLateralVerticalFromRoll (ext : ExtConv) (rollAngles : Option (List ℚ))
    (planeOffset : ℚ) : Option (List ℚ) × Option (List ℚ) :=
  match rollAngles with
  | none => (none, some [planeOffset - 90, planeOffset + 90])
  | some a => ext.lateralVerticalFromRoll a planeOffset

/-- `SphericalPlaneMixin._azimuth_elevation_from_yaw`. -/
def sphericalAzimuthElevationFromYaw (ext : ExtConv) (yawAngles : Option (List ℚ))
    (planeOffset : ℚ) : Option (List ℚ) × Option (List ℚ) :=
  match yawAngles with
  | none => (none, some [planeOffset])
  | some a => ext.azimuthElevationFromYaw a planeOffset

/-- `SphericalPlaneMixin._azimuth_elevation_from_pitch`. -/
def sphericalAzimuthElevationFromPitch (ext : ExtConv) (pitchAngles : Option (List ℚ))
    (planeOffset : ℚ) : Option (List ℚ) × Option (List ℚ) :=
  match pitchAngles with
  | none => (some [planeOffset - 180, planeOffset], none)
  | some a => ext.azimuthElevationFromPitch a planeOffset

/-- `SphericalPlaneMixin._azimuth_elevation_from_roll`. -/
def sphericalAzimuthElevationFromRoll (ext : ExtConv) (rollAngles : Option (List ℚ))
    (planeOffset : ℚ) : Option (List ℚ) × Option (List ℚ) :=
  match rollAngles with
  | none => (some [planeOffset - 90, planeOffset + 90], none)
  | some a => ext.azimuthElevationFromRoll a planeOffset

/-- The plane/offset validation and angle resolution of
`InterauralPlaneMixin.__init__` (the `lateral_angles, vertical_angles` computation
with its `ValueError` raises). -/
def interauralPlaneAngles (ext : ExtConv) (plane : Plane)
    (planeAngles : Option (List ℚ)) (planeOffset : ℚ) :
    Except PyErr (Option (List ℚ) × Option (List ℚ)) :=
  match plane with
  | .horizontal =>
    if planeOffset ≠ 0 then
      .error (.valueError "Only the horizontal plane at vertical angle 0 is available in an interaural coordinate dataset")
    else .ok (interauralLateralVerticalFromYaw ext planeAngles planeOffset)
  | .median => .ok (interauralLateralVerticalFromPitch ext planeAngles planeOffset)
  | .frontal =>
    if planeOffset ≠ 0 then
      .error (.valueError "Only the frontal plane at vertical angles +/-90 is available in an interaural coordinate dataset")
    else .ok (interauralLateralVerticalFromRoll ext planeAngles planeOffset)
  | .interaural => .ok (interauralLateralVerticalFromYaw ext planeAngles planeOffset)
  | .vertical =>
    .error (.valueError "Unknown plane \x7b\x7d, needs to be horizontal, median, frontal or interaural.")

/-- The plane/offset validation and angle resolution of
`SphericalPlaneMixin.__init__`. -/
def sphericalPlaneAngles (ext : ExtConv) (plane : Plane)
    (planeAngles : Option (List ℚ)) (planeOffset : ℚ) :
    Except PyErr (Option (List ℚ) × Option (List ℚ)) :=
  match plane with
  | .horizontal => .ok (sphericalAzimuthElevationFromYaw ext planeAngles planeOffset)
  | .median =>
    if planeOffset ≠ 0 then
      .error (.valueError "Only the median plane at azimuth 0 is available in a spherical coordinate dataset")
    else .ok (sphericalAzimuthElevationFromPitch ext planeAngles planeOffset)
  | .frontal =>
    if planeOffset ≠ 0 then
      .error (.valueError "Only the frontal plane at azimuth +/-90 is available in a spherical coordinate dataset")
    else .ok (sphericalAzimuthElevationFromRoll ext planeAngles planeOffset)
  | .vertical => .ok (sphericalAzimuthElevationFromPitch ext planeAngles planeOffset)
  | .interaural =>
    .error (.valueError "Unknown plane \x7b\x7d, needs to be horizontal, median, frontal or vertical.")

/-- The role-name collision check of `PlaneMixin.__init__`: each `other_specs` key
is split on `'_spec'` and compared with `hrir_role`. -/
def checkOtherSpecs (hrirRole : String) (otherSpecs : List (String × Spec)) :
    Except PyErr Unit :=
  match otherSpecs.find? (fun p => splitSpecHead p.1 == hrirRole) with
  | some p =>
    .error (.valueError ("No " ++ p.1 ++ " should be given since that role is already taken by the HRIRs"))
  | none => .ok ()

/-- The plane transform owned by a plane dataset: the mutable `positive_angles`
flag and `calc_plane_angles`, modelled as a function that receives the flag
explicitly. -/
structure PlanarTransform where
  positiveAngles : Bool
  calcPlaneAngles : Bool → List ℚ → List ℚ → List Bool → List ℚ

/-- A constructed plane dataset: the underlying DatasetView plus the resolved
fundamental/orthogonal angles, selection mask, transform and exposed plane angles. -/
structure PlaneDataset where
  view : DatasetState
  fundamentalAngles : List ℚ
  orthogonalAngles : List ℚ
  selectionMask : List Bool
  planarTransform : PlanarTransform
  planeAngles : List ℚ

/-- The `positive_angles` setter of `PlaneMixin`: update the transform's flag and
recompute `plane_angles` via `calc_plane_angles` on the already-resolved angles. -/
def setPositiveAngles (ds : PlaneDataset) (value : Bool) : PlaneDataset :=
  let t := { ds.planarTransform with positiveAngles := value }
  { ds with planarTransform := t,
            planeAngles := t.calcPlaneAngles t.positiveAngles ds.fundamentalAngles
              ds.orthogonalAngles ds.selectionMask }

/-- A specification entry with only a modality key (all configs defaulted). -/
def mkSpec (k : Modality) : SpecEntry := { key := k }

/-- A concrete catalog whose collection holds one subject `5` with side `left`,
applying include ids as a filter, string includes as no-ops and excludes as a
filter. -/
def qOne : Query :=
  { ids := fun _ inc exc =>
      let base := [(5, "left")]
      let afterInc := match inc with
        | none => base
        | some (SubjArg.ids l) => base.filter (fun p => l.contains p.1)
        | some (SubjArg.strArg _) => base
      match exc with
      | none => afterInc
      | some l => afterInc.filter (fun p => !(l.contains p.1)),
    collectionId := "cipic" }

/-- A concrete catalog that always returns zero ids. -/
def qNone : Query := { ids := fun _ _ _ => [], collectionId := "empty" }

/-- A concrete spherical datapoint with a trivial one-cell grid. -/
def dpTriv : DataPointM :=
  { isSpherical := true,
    hrirAngleIndices := fun _ => [(0, [0])],
    hrirSamplerate := fun _ => 44100,
    hrirLength := fun _ => 256,
    hrtfFrequencies := fun _ => [0],
    pinnaImage := fun _ _ _ => Val.arr [32, 32] [],
    anthropomorphicData := fun _ _ => Val.arr [2] [1, 2],
    hrir := fun _ _ _ => Val.arr [1, 1, 2] [1, 2] }

/-- A concrete interaural (non-spherical) datapoint whose column angles contain a
singular -180 entry in front of an antisymmetric remainder. -/
def dpInterCE : DataPointM :=
  { dpTriv with isSpherical := false,
                hrirAngleIndices := fun _ => [(0, [-180, -90, 0, 90])] }

/-- A concrete spherical datapoint with antisymmetric row angles. -/
def dpSphW : DataPointM :=
  { dpTriv with isSpherical := true,
                hrirAngleIndices := fun _ => [(-90, [0]), (0, [0]), (90, [0])] }

/-- Identity transforms (no image transform, no measurement or hrir transform). -/
def cfgId : TransformCfg :=
  { imageResize := id, imageTransform := none, measurementTransform := none,
    hrirTransform := none }

/-- An hrirs specification requesting a mirrored side. -/
def specHrirsBoth : Spec := [{ key := Modality.hrirs, side := "both-left" }]

/-- A ready one-example DatasetView used as a concrete batching fixture. -/
def stBatch : DatasetState :=
  { query := qOne, cfg := cfgId, excludeIds := none,
    specification := [mkSpec Modality.subject],
    subjectIds := [5], sides := ["left"], hrirSamplerate := some 44100,
    hrirLength := some 256, hrtfFrequencies := some [0],
    features := [[(Modality.subject, Val.nat 5)]], targets := [[]], groups := [[]],
    selectedAngles := [], rowAngles := [], columnAngles := [] }

/-- Modelled from the spec (claim text of C2): antisymmetry about zero within
numeric tolerance, accounting for a possible singular plus-or-minus-180 entry that
maps to itself.  This is the claim-side reading checked against the source, not a
translation of the source. -/
def claimC2MirrorAllowanceOk (angles : List ℚ) : Bool :=
  let stripped :=
    if npIsClose (angles.headD 0) (-180) then angles.drop 1
    else if npIsClose (angles.reverse.headD 0) 180 then angles.dropLast
    else angles
  npAllClose stripped (stripped.reverse.map (fun a => -a))

/-- Modelled from the spec (claim text of C4): the stored exclude-list the claim
predicts — explicit exclude kept; otherwise empty whenever any include-list is
provided; otherwise unset. -/
def claimC4ExcludeTable (si : Option SubjArg) (ei : Option (List Nat)) :
    Option (List Nat) :=
  match ei with
  | some e => some e
  | none => if si.isSome then some [] else none

/-- The exclude-list truth table actually implemented by the source (amended
claim C4): a string include-list does not trigger the empty default. -/
def amendedExcludeTable (si : Option SubjArg) (ei : Option (List Nat)) :
    Option (List Nat) :=
  match ei with
  | some e => some e
  | none =>
    match si with
    | some (SubjArg.ids _) => some []
    | _ => none

/-- C1: if the filtered catalog query is empty and the unfiltered query of the same
specification is also empty, construction fails with the configuration error;
if only the filtered query is empty, construction succeeds with a degenerate
DatasetView of length 0 whose subject-id, feature, target and group stores and
row/column angle arrays are all empty. -/
theorem C1_empty_filtered_query (q : Query) (dp : DataPointM) (cfg : TransformCfg)
    (fs ts gs : Spec) (si : Option SubjArg) (sr : Option Spec) (ei : Option (List Nat))
    (hspec : (pyMergeSpec (pyMergeSpec fs ts) gs).isEmpty = false)
    (hfilt : q.ids (mergedSpecification fs ts gs sr) si (effectiveExcludeIds si ei) = []) :
    (q.ids (mergedSpecification fs ts gs sr) none none = [] →
        initDataset q dp cfg fs ts gs si sr ei =
          .error (.valueError "Empty dataset. Check if its configuration and paths are correct.")) ∧
      (q.ids (mergedSpecification fs ts gs sr) none none ≠ [] →
        ∃ st, initDataset q dp cfg fs ts gs si sr ei = .ok st ∧
          lenDataset st = 0 ∧ st.subjectIds = [] ∧ st.features = [] ∧ st.targets = [] ∧
          st.groups = [] ∧ st.rowAngles = [] ∧ st.columnAngles = []) := by
  constructor
  · intro hunf
    simp only [initDataset, hspec, hfilt, hunf, List.isEmpty_nil, Bool.false_eq_true,
      if_false, if_true, ite_true, ite_false]
  · intro hunf
    refine ⟨degenerateState q cfg (effectiveExcludeIds si ei)
      (mergedSpecification fs ts gs sr), ?_, rfl, rfl, rfl, rfl, rfl, rfl, rfl⟩
    simp only [initDataset, hspec, hfilt, List.isEmpty_nil, Bool.false_eq_true,
      if_false, if_true, ite_true, ite_false, List.isEmpty_eq_true, hunf]

/-- C1 witness: a concrete construction whose filtered query is empty while the
unfiltered query is not, yielding the degenerate empty view. -/
theorem C1_witness :
    ∃ st, initDataset qOne dpTriv cfgId [mkSpec Modality.subject] [] []
        (some (SubjArg.ids [2])) none none = .ok st ∧
      lenDataset st = 0 ∧ st.subjectIds = [] ∧ st.features = [] ∧ st.targets = [] ∧
      st.groups = [] ∧ st.rowAngles = [] ∧ st.columnAngles = [] :=
  (C1_empty_filtered_query qOne dpTriv cfgId [mkSpec Modality.subject] [] []
    (some (SubjArg.ids [2])) none none (by decide) (by decide)).2 (by decide)

/-- C5: in an interaural-coordinate plane dataset, plane `horizontal` or `frontal`
with a nonzero offset, and plane `vertical` with any offset, fail the validation
with a configuration error; in a spherical-coordinate plane dataset, plane `median`
or `frontal` with a nonzero offset, and plane `interaural` with any offset, fail;
every other plane/offset combination passes. -/
theorem C5_plane_offset_validation (ext : ExtConv) (plane : Plane)
    (planeAngles : Option (List ℚ)) (offset : ℚ) :
    (exceptIsOk (interauralPlaneAngles ext plane planeAngles offset) = false ↔
      (plane = .horizontal ∧ offset ≠ 0) ∨ (plane = .frontal ∧ offset ≠ 0) ∨
        plane = .vertical) ∧
    (exceptIsOk (sphericalPlaneAngles ext plane planeAngles offset) = false ↔
      (plane = .median ∧ offset ≠ 0) ∨ (plane = .frontal ∧ offset ≠ 0) ∨
        plane = .interaural) := by
  constructor <;> cases plane <;> by_cases h : offset = 0 <;>
    simp [interauralPlaneAngles, sphericalPlaneAngles, exceptIsOk, h]

/-- C6: with `none` requested plane angles, the interaural helpers return
`(none, [o-180, o])` for yaw, `([o], none)` for pitch and `(none, [o-90, o+90])`
for roll, and the spherical helpers return `(none, [o])` for yaw,
`([o-180, o], none)` for pitch and `([o-90, o+90], none)` for roll. -/
theorem C6_none_angle_ranges (ext : ExtConv) (o : ℚ) :
    interauralLateralVerticalFromYaw ext none o = (none, some [o - 180, o]) ∧
    interauralLateralVerticalFromPitch ext none o = (some [o], none) ∧
    interauralLateralVerticalFromRoll ext none o = (none, some [o - 90, o + 90]) ∧
    sphericalAzimuthElevationFromYaw ext none o = (none, some [o]) ∧
    sphericalAzimuthElevationFromPitch ext none o = (some [o - 180, o], none) ∧
    sphericalAzimuthElevationFromRoll ext none o = (some [o - 90, o + 90], none) :=
  ⟨rfl, rfl, rfl, rfl, rfl, rfl⟩

/-- C9: writing `positive_angles` updates only the transform's flag and recomputes
`plane_angles` via `calc_plane_angles` on the already-resolved fundamental angles,
orthogonal angles and selection mask; the underlying DatasetView is unchanged (no
rebuild, no catalog query). -/
theorem C9_positive_angles_setter (ds : PlaneDataset) (value : Bool) :
    (setPositiveAngles ds value).view = ds.view ∧
    (setPositiveAngles ds value).fundamentalAngles = ds.fundamentalAngles ∧
    (setPositiveAngles ds value).orthogonalAngles = ds.orthogonalAngles ∧
    (setPositiveAngles ds value).selectionMask = ds.selectionMask ∧
    (setPositiveAngles ds value).planarTransform.positiveAngles = value ∧
    (setPositiveAngles ds value).planarTransform.calcPlaneAngles
      = ds.planarTransform.calcPlaneAngles ∧
    (setPositiveAngles ds value).planeAngles
      = ds.planarTransform.calcPlaneAngles value ds.fundamentalAngles
          ds.orthogonalAngles ds.selectionMask :=
  ⟨rfl, rfl, rfl, rfl, rfl, rfl, rfl⟩

/-- C4 counterexample: providing a string `subject_ids` while leaving `exclude_ids`
unset stores `None` as the exclude-list, not the empty collection the claim
predicts. -/
theorem C4_counterexample :
    (initDataset qOne dpTriv cfgId [mkSpec Modality.subject] [] []
        (some (SubjArg.strArg "first")) none none).toOption.map DatasetState.excludeIds
      = some none ∧
    claimC4ExcludeTable (some (SubjArg.strArg "first")) none = some [] ∧
    (none : Option (List Nat)) ≠ some [] := by decide

/-- C4 amended: the stored exclude-list follows the source truth table — an explicit
exclude-list is kept; otherwise it becomes the empty collection exactly when a
non-string include-list is provided, and stays unset in every other case. -/
theorem C4_amended_exclude (q : Query) (dp : DataPointM) (cfg : TransformCfg)
    (fs ts gs : Spec) (si : Option SubjArg) (sr : Option Spec) (ei : Option (List Nat))
    (st : DatasetState)
    (hok : initDataset q dp cfg fs ts gs si sr ei = .ok st) :
    st.excludeIds = amendedExcludeTable si ei := by
  have hex : st.excludeIds = effectiveExcludeIds si ei := by
    unfold initDataset at hok
    by_cases h1 : (pyMergeSpec (pyMergeSpec fs ts) gs).isEmpty = true
    · rw [if_pos h1] at hok
      exact Except.noConfusion hok
    · rw [if_neg h1] at hok
      by_cases h2 : (q.ids (mergedSpecification fs ts gs sr) si
          (effectiveExcludeIds si ei)).isEmpty = true
      · rw [if_pos h2] at hok
        by_cases h3 : (q.ids (mergedSpecification fs ts gs sr) none none).isEmpty = true
        · rw [if_pos h3] at hok
          exact Except.noConfusion hok
        · rw [if_neg h3] at hok
          injection hok with h
          subst h
          rfl
      · rw [if_neg h2] at hok
        simp only [] at hok
        repeat' split at hok
        all_goals
          first
            | exact Except.noConfusion hok
            | (injection hok with h; subst h; rfl)
  rw [hex]
  rcases ei with _ | e
  · rcases si with _ | a
    · rfl
    · cases a <;> rfl
  · rcases si with _ | a
    · rfl
    · cases a <;> rfl

/-- C4 witness: a concrete construction with a non-string include-list and no
exclude-list, whose stored exclude-list matches the amended truth table. -/
theorem C4_witness :
    (degenerateState qOne cfgId (some []) [mkSpec Modality.subject]).excludeIds
      = amendedExcludeTable (some (SubjArg.ids [2])) none :=
  C4_amended_exclude qOne dpTriv cfgId [mkSpec Modality.subject] [] []
    (some (SubjArg.ids [2])) none none _ rfl

/-- C10 counterexample: a degenerate empty-but-valid DatasetView whose emptiness is
due to the include-list reads `available_subject_ids` without error, returning the
catalog's ids. -/
theorem C10_counterexample :
    (initDataset qOne dpTriv cfgId [mkSpec Modality.subject] [] []
        (some (SubjArg.ids [2])) none none).toOption.map
      (fun st => (lenDataset st, (availableSubjectIds st).toOption))
      = some (0, some [5]) := by decide

/-- C10 amended: whenever the catalog query with the stored specification and stored
exclude-list returns zero pairs, reading `available_subject_ids` raises the
tuple-unpacking error instead of returning an empty tuple. -/
theorem C10_available_raises (st : DatasetState)
    (h : st.query.ids st.specification none st.excludeIds = []) :
    availableSubjectIds st =
      .error (.valueError "not enough values to unpack (expected 2, got 0)") := by
  unfold availableSubjectIds
  simp [h]

/-- A DatasetView over a catalog that returns no ids at all. -/
def stEmptyQ : DatasetState := degenerateState qNone cfgId none []

/-- C10 witness: reading `available_subject_ids` on a view whose catalog query is
empty raises the unpacking error. -/
theorem C10_witness :
    availableSubjectIds stEmptyQ =
      .error (.valueError "not enough values to unpack (expected 2, got 0)") :=
  C10_available_raises stEmptyQ rfl

/-- C8 counterexample: constructing with the modality `subject` claimed by both the
feature and the target specification succeeds — the merged specification silently
deduplicates — contradicting the claim that such a construction fails. -/
theorem C8_counterexample :
    exceptIsOk (initDataset qOne dpTriv cfgId [mkSpec Modality.subject]
      [mkSpec Modality.subject] [] none none none) = true ∧
    (initDataset qOne dpTriv cfgId [mkSpec Modality.subject]
      [mkSpec Modality.subject] [] none none none).toOption.map
        DatasetState.specification = some [mkSpec Modality.subject] := by decide

/-- C8 amended: exclusivity is enforced only by the plane mixin's role-name check —
an `other_specs` entry whose name before `'_spec'` equals `hrir_role` fails with a
configuration error, and only then — while `HRTFDataset` accepts the same modality
claimed by several of the feature/target/group specifications, merging them. -/
theorem C8_role_exclusivity :
    (∀ (hrirRole : String) (otherSpecs : List (String × Spec)),
      exceptIsOk (checkOtherSpecs hrirRole otherSpecs) = false ↔
        ∃ p ∈ otherSpecs, splitSpecHead p.1 = hrirRole) ∧
    exceptIsOk (initDataset qOne dpTriv cfgId [mkSpec Modality.subject]
      [mkSpec Modality.subject] [] none none none) = true := by
  constructor
  · intro hrirRole otherSpecs
    unfold checkOtherSpecs
    rcases hfind : otherSpecs.find? (fun p => splitSpecHead p.1 == hrirRole) with _ | p
    · rw [hfind]
      refine iff_of_false (by simp [exceptIsOk]) ?_
      rintro ⟨p, hp, heq⟩
      have h2 := List.find?_eq_none.mp hfind p hp
      simp [heq] at h2
    · rw [hfind]
      refine iff_of_true (by simp [exceptIsOk]) ?_
      refine ⟨p, List.mem_of_find?_eq_some hfind, ?_⟩
      have h3 := List.find?_some hfind
      simpa using h3
  · decide

/-- C2 counterexample: an interaural datapoint whose column angles are
antisymmetric after removing a singular -180 entry — so the claim's allowance deems
them valid — still fails construction with the symmetry configuration error. -/
theorem C2_counterexample :
    claimC2MirrorAllowanceOk [-180, -90, 0, 90] = true ∧
    exceptErr (initDataset qOne dpInterCE cfgId specHrirsBoth [] [] none none none)
      = some (.valueError
        "Only datasets with symmetric lateral angles can use both-left sides.") := by
  decide

/-- C2 amended: for a `both-*` side, a spherical datapoint's construction succeeds
exactly when the row angles pass the source check (antisymmetry after skipping a
leading entry within tolerance of -180), and an interaural datapoint's construction
succeeds exactly when the column angles are antisymmetric within tolerance with no
singular-entry allowance; the failing case raises the configuration error. -/
theorem C2_mirror_verification (q : Query) (dp : DataPointM) (cfg : TransformCfg)
    (fs ts gs : Spec) (si : Option SubjArg) (sr : Option Spec) (ei : Option (List Nat))
    (spec : Spec) (ex : Option (List Nat)) (sel : List (ℚ × List ℚ))
    (hspecdef : spec = mergedSpecification fs ts gs sr)
    (hexdef : ex = effectiveExcludeIds si ei)
    (hseldef : sel = dp.hrirAngleIndices (((q.ids spec si ex).map Prod.fst).headD 0))
    (hspec0 : (pyMergeSpec (pyMergeSpec fs ts) gs).isEmpty = false)
    (hhr : specHasKey spec Modality.hrirs = true)
    (hside : strStartsWith (hrirsSide spec) "both-" = true)
    (hne : (q.ids spec si ex).isEmpty = false)
    (hsel : sel.isEmpty = false) :
    (dp.isSpherical = true →
      (sphericalMirrorOk (sel.map Prod.fst) = true →
        exceptIsOk (initDataset q dp cfg fs ts gs si sr ei) = true) ∧
      (sphericalMirrorOk (sel.map Prod.fst) = false →
        initDataset q dp cfg fs ts gs si sr ei = .error (.valueError
          ("Only datasets with symmetric azimuths can use " ++ hrirsSide spec ++ " sides.")))) ∧
    (dp.isSpherical = false →
      (interauralMirrorOk ((sel.head?.map Prod.snd).getD []) = true →
        exceptIsOk (initDataset q dp cfg fs ts gs si sr ei) = true) ∧
      (interauralMirrorOk ((sel.head?.map Prod.snd).getD []) = false →
        initDataset q dp cfg fs ts gs si sr ei = .error (.valueError
          ("Only datasets with symmetric lateral angles can use " ++ hrirsSide spec ++ " sides.")))) := by
  subst hspecdef
  subst hexdef
  unfold initDataset
  rw [if_neg (by simp [hspec0])]
  simp only []
  rw [if_neg (by simp [hne])]
  rw [if_pos hhr]
  rw [← hseldef]
  rcases sel with _ | ⟨p, rest⟩
  · simp at hsel
  · simp only [List.head?_cons]
    rw [if_pos hside]
    cases hs : dp.isSpherical
    · constructor
      · intro h
        exact absurd h (by simp [hs])
      · intro _
        constructor
        · intro hmir
          simp only [Option.map_some', Option.getD_some] at hmir
          simp [hmir, exceptIsOk]
        · intro hmir
          simp only [Option.map_some', Option.getD_some] at hmir
          simp [hmir, exceptIsOk]
    · constructor
      · intro _
        constructor
        · intro hmir
          simp only [List.map_cons] at hmir
          simp [hmir, exceptIsOk]
        · intro hmir
          simp only [List.map_cons] at hmir
          simp [hmir, exceptIsOk]
      · intro h
        exact absurd h (by simp [hs])

/-- C2 witness: a spherical datapoint with antisymmetric rows constructs
successfully under a `both-left` side request. -/
theorem C2_witness :
    exceptIsOk (initDataset qOne dpSphW cfgId specHrirsBoth [] [] none none none) = true :=
  (((C2_mirror_verification qOne dpSphW cfgId specHrirsBoth [] [] none none none
      _ _ _ rfl rfl rfl (by decide) (by decide) (by decide) (by decide) (by decide)).1
      rfl).1) (by decide)

/-- Helper: an `Except` computation is ok exactly when some result exists. -/
theorem exceptIsOk_iff_exists {ε α : Type} (e : Except ε α) :
    exceptIsOk e = true ↔ ∃ a, e = .ok a := by
  cases e <;> simp [exceptIsOk]

/-- Helper: the element-wise retrieval loop succeeds on in-range indices and
returns the shaped examples. -/
theorem collectItems_ok (st : DatasetState) (idxs : List Nat)
    (hb : ∀ i ∈ idxs, i < st.features.length ∧ i < st.targets.length ∧ i < st.groups.length) :
    collectItems st idxs = .ok (idxs.map (itemAt st)) := by
  induction idxs with
  | nil => rfl
  | cons i is ih =>
    have hi := hb i (List.mem_cons_self i is)
    have hrest := fun j hj => hb j (List.mem_cons_of_mem i hj)
    have h1 : getItemInt st i = .ok (itemAt st i) := by
      unfold getItemInt itemAt
      rw [if_pos hi]
    simp [collectItems, h1, ih hrest]

/-- Helper: `np.stack` succeeds on a nonempty list exactly when the head's shape is
defined and every element's shape matches it. -/
theorem npStack_ok_iff (x : SVal) (rest : List SVal) :
    exceptIsOk (npStack (x :: rest)) = true ↔
      (npShape x).isSome ∧ ∀ y ∈ rest, npShape y = npShape x := by
  rcases h : npShape x with _ | s
  · simp [npStack, exceptIsOk, h]
  · simp only [npStack, h]
    by_cases hall : rest.all (fun y => decide (npShape y = some s)) = true
    · rw [if_pos hall]
      simp only [exceptIsOk, Option.isSome_some, true_and, true_iff]
      intro y hy
      have h2 := List.all_eq_true.mp hall y hy
      simpa using h2
    · rw [if_neg hall]
      simp only [exceptIsOk, Option.isSome_some, true_and, Bool.false_eq_true, false_iff]
      intro hforall
      apply hall
      apply List.all_eq_true.mpr
      intro y hy
      simpa using hforall y hy

/-- Helper: a successful `np.stack` forces all member shapes to agree. -/
theorem npStack_mem_shape_eq (xs : List SVal) (hok : exceptIsOk (npStack xs) = true) :
    ∀ a ∈ xs, ∀ b ∈ xs, npShape a = npShape b := by
  cases xs with
  | nil => simp [npStack, exceptIsOk] at hok
  | cons x rest =>
    have h := (npStack_ok_iff x rest).mp hok
    intro a ha b hb
    rcases List.mem_cons.mp ha with rfl | ha2 <;> rcases List.mem_cons.mp hb with rfl | hb2
    · rfl
    · exact (h.2 b hb2).symm
    · exact h.2 a ha2
    · rw [h.2 a ha2, h.2 b hb2]

/-- C7 amended: for every nonempty batch of valid indices with defined per-role
shapes, batched retrieval returns the stacked record exactly when the per-index
shape triples are pairwise identical, and raises the shape-mismatch error when they
are not (an empty batch instead raises `IndexError`, see the counterexample). -/
theorem C7_batch_stacking (st : DatasetState) (i0 : Nat) (idxs : List Nat)
    (hb : ∀ i ∈ (i0 :: idxs), i < st.features.length ∧ i < st.targets.length ∧
      i < st.groups.length)
    (hdef : ∀ i ∈ (i0 :: idxs), (npShape (itemAt st i).features).isSome ∧
      (npShape (itemAt st i).target).isSome ∧ (npShape (itemAt st i).group).isSome) :
    ((∀ i ∈ (i0 :: idxs), ∀ j ∈ (i0 :: idxs),
        shapeTriple (itemAt st i) = shapeTriple (itemAt st j)) →
      ∃ b, getItemBatch st (i0 :: idxs) = .ok b) ∧
    ((¬ ∀ i ∈ (i0 :: idxs), ∀ j ∈ (i0 :: idxs),
        shapeTriple (itemAt st i) = shapeTriple (itemAt st j)) →
      getItemBatch st (i0 :: idxs) =
        .error (.valueError "Not all data points have the same shape")) := by
  have hcollect := collectItems_ok st (i0 :: idxs) hb
  constructor
  · intro hpair
    have hokF : exceptIsOk (npStack (((i0 :: idxs).map (itemAt st)).map Item.features)) = true := by
      simp only [List.map_cons]
      apply (npStack_ok_iff _ _).mpr
      constructor
      · exact (hdef i0 (List.mem_cons_self i0 idxs)).1
      · intro y hy
        rcases List.mem_map.mp hy with ⟨it2, hit2, rfl⟩
        rcases List.mem_map.mp hit2 with ⟨j, hj, rfl⟩
        have := hpair j (List.mem_cons_of_mem i0 hj) i0 (List.mem_cons_self i0 idxs)
        exact congrArg (fun t => t.1) this
    have hokT : exceptIsOk (npStack (((i0 :: idxs).map (itemAt st)).map Item.target)) = true := by
      simp only [List.map_cons]
      apply (npStack_ok_iff _ _).mpr
      constructor
      · exact (hdef i0 (List.mem_cons_self i0 idxs)).2.1
      · intro y hy
        rcases List.mem_map.mp hy with ⟨it2, hit2, rfl⟩
        rcases List.mem_map.mp hit2 with ⟨j, hj, rfl⟩
        have := hpair j (List.mem_cons_of_mem i0 hj) i0 (List.mem_cons_self i0 idxs)
        exact congrArg (fun t => t.2.1) this
    have hokG : exceptIsOk (npStack (((i0 :: idxs).map (itemAt st)).map Item.group)) = true := by
      simp only [List.map_cons]
      apply (npStack_ok_iff _ _).mpr
      constructor
      · exact (hdef i0 (List.mem_cons_self i0 idxs)).2.2
      · intro y hy
        rcases List.mem_map.mp hy with ⟨it2, hit2, rfl⟩
        rcases List.mem_map.mp hit2 with ⟨j, hj, rfl⟩
        have := hpair j (List.mem_cons_of_mem i0 hj) i0 (List.mem_cons_self i0 idxs)
        exact congrArg (fun t => t.2.2) this
    rcases (exceptIsOk_iff_exists _).mp hokF with ⟨f, hf⟩
    rcases (exceptIsOk_iff_exists _).mp hokT with ⟨t, ht⟩
    rcases (exceptIsOk_iff_exists _).mp hokG with ⟨g, hg⟩
    refine ⟨⟨f, t, g⟩, ?_⟩
    unfold getItemBatch
    rw [hcollect]
    simp only [List.map_cons] at hf ht hg ⊢
    rw [hf, ht, hg]
  · intro hpair
    unfold getItemBatch
    rw [hcollect]
    simp only [List.map_cons]
    rcases hf : npStack ((itemAt st i0).features :: List.map Item.features (List.map (itemAt st) idxs)) with e | f
    · rfl
    rcases ht : npStack ((itemAt st i0).target :: List.map Item.target (List.map (itemAt st) idxs)) with e | t
    · rfl
    rcases hg : npStack ((itemAt st i0).group :: List.map Item.group (List.map (itemAt st) idxs)) with e | g
    · rfl
    exfalso
    apply hpair
    intro i hi j hj
    have memF : ∀ k ∈ (i0 :: idxs), (itemAt st k).features ∈
        ((itemAt st i0).features :: List.map Item.features (List.map (itemAt st) idxs)) := by
      intro k hk
      rcases List.mem_cons.mp hk with rfl | hk2
      · exact List.mem_cons_self _ _
      · exact List.mem_cons_of_mem _ (List.mem_map_of_mem _ (List.mem_map_of_mem _ hk2))
    have memT : ∀ k ∈ (i0 :: idxs), (itemAt st k).target ∈
        ((itemAt st i0).target :: List.map Item.target (List.map (itemAt st) idxs)) := by
      intro k hk
      rcases List.mem_cons.mp hk with rfl | hk2
      · exact List.mem_cons_self _ _
      · exact List.mem_cons_of_mem _ (List.mem_map_of_mem _ (List.mem_map_of_mem _ hk2))
    have memG : ∀ k ∈ (i0 :: idxs), (itemAt st k).group ∈
        ((itemAt st i0).group :: List.map Item.group (List.map (itemAt st) idxs)) := by
      intro k hk
      rcases List.mem_cons.mp hk with rfl | hk2
      · exact List.mem_cons_self _ _
      · exact List.mem_cons_of_mem _ (List.mem_map_of_mem _ (List.mem_map_of_mem _ hk2))
    have h1 := npStack_mem_shape_eq _ (by rw [hf]; rfl) _ (memF i hi) _ (memF j hj)
    have h2 := npStack_mem_shape_eq _ (by rw [ht]; rfl) _ (memT i hi) _ (memT j hj)
    have h3 := npStack_mem_shape_eq _ (by rw [hg]; rfl) _ (memG i hi) _ (memG j hj)
    simp [shapeTriple, h1, h2, h3]

/-- C3 counterexample: a feature specification with insertion order (side, subject)
yields the tuple `(subject value, side value)` — the fixed canonical modality order
of the store — not the specification's insertion order as claimed. -/
theorem C3_counterexample :
    ((initDataset qOne dpTriv cfgId [{ key := Modality.side }, { key := Modality.subject }]
        [] [] none none none).toOption.map
      (fun st => (getItemInt st 0).toOption.map Item.features))
      = some (some (SVal.tup [Val.nat 5, Val.str "left"])) ∧
    SVal.tup [Val.nat 5, Val.str "left"] ≠ SVal.tup [Val.str "left", Val.nat 5] := by
  decide

/-- C3 amended: a role claiming zero modalities yields the empty array, exactly one
modality yields the single looked-up value unwrapped, and more than one yields a
tuple of looked-up values ordered by the stored record's key order, which is the
fixed canonical modality order (images, anthropometry, hrirs, subject, side,
collection) restricted to the role's modalities — not the specification's
insertion order; values are looked up in the merged, transform-applied
characteristics. -/
theorem C3_shaping :
    (∀ (st : DatasetState) (idx : Nat), idx < st.features.length →
        idx < st.targets.length → idx < st.groups.length →
      getItemInt st idx = .ok (getSingleItem st.cfg (st.features.getD idx [])
        (st.targets.getD idx []) (st.groups.getD idx []))) ∧
    (∀ (cfg : TransformCfg) (f t g : Store),
      (getSingleItem cfg f t g).features
          = shapeData (transformedCharacteristics cfg f t g) (f.map Prod.fst) ∧
        (getSingleItem cfg f t g).target
          = shapeData (transformedCharacteristics cfg f t g) (t.map Prod.fst) ∧
        (getSingleItem cfg f t g).group
          = shapeData (transformedCharacteristics cfg f t g) (g.map Prod.fst)) ∧
    (∀ (dp : DataPointM) (cid : String) (spec : Spec) (subject : Nat) (side : String),
      (buildSubjectData dp cid spec subject side).map Prod.fst
        = canonicalOrder.filter (fun k => specHasKey spec k)) ∧
    (∀ ch : Store, shapeData ch [] = SVal.emptyArr) ∧
    (∀ (ch : Store) (k : Modality), shapeData ch [k] = SVal.raw (storeGet ch k)) ∧
    (∀ (ch : Store) (k1 k2 : Modality) (ks : List Modality),
      shapeData ch (k1 :: k2 :: ks) = SVal.tup ((k1 :: k2 :: ks).map (fun k => storeGet ch k))) := by
  refine ⟨?_, ?_, ?_, ?_, ?_, ?_⟩
  · intro st idx h1 h2 h3
    unfold getItemInt
    rw [if_pos ⟨h1, h2, h3⟩]
  · intro cfg f t g
    exact ⟨rfl, rfl, rfl⟩
  · intro dp cid spec subject side
    cases h1 : specHasKey spec Modality.images <;>
    cases h2 : specHasKey spec Modality.anthropometry <;>
    cases h3 : specHasKey spec Modality.hrirs <;>
    cases h4 : specHasKey spec Modality.subject <;>
    cases h5 : specHasKey spec Modality.side <;>
    cases h6 : specHasKey spec Modality.collection <;>
      simp [buildSubjectData, canonicalOrder, h1, h2, h3, h4, h5, h6]
  · intro ch
    rfl
  · intro ch k
    rfl
  · intro ch k1 k2 ks
    rfl

/-- C3 witness: single-index retrieval on a concrete ready view produces the shaped
example of the stored role records. -/
theorem C3_witness :
    getItemInt stBatch 0 = .ok (getSingleItem stBatch.cfg (stBatch.features.getD 0 [])
      (stBatch.targets.getD 0 []) (stBatch.groups.getD 0 [])) :=
  C3_shaping.1 stBatch 0 (by decide) (by decide) (by decide)

/-- C7 counterexample: an empty batch (for instance an empty slice) raises
`IndexError` from `items[0]`, although its per-index shapes are vacuously pairwise
identical, so the claim's promised stacked record is not returned. -/
theorem C7_counterexample :
    getItemBatch stBatch [] = .error PyErr.indexError ∧
    PyErr.indexError ≠ PyErr.valueError "Not all data points have the same shape" :=
  ⟨rfl, by decide⟩

/-- C7 witness: a concrete two-element batch of identical examples stacks
successfully. -/
theorem C7_witness :
    ∃ b, getItemBatch stBatch [0, 0] = .ok b :=
  (C7_batch_stacking stBatch 0 [0] (by decide) (by decide)).1 (by decide)

end Hrtfdata
